import Mathlib

/-!
Shallow embedding of the mode state machine and AOA event notification
queue of `drivers/usb/gadget/serial.c` (USB gadget serial driver with
CDC-ACM / Android Open Accessory personality switching).

The event log is a singly linked list of `struct aoa_event_list_node`
with three module-scope pointers: `first_aoa_event_node` (head),
`last_aoa_event_node` (tail) and `next_aoa_event_node` (consumer
cursor).  We represent the list of nodes reachable from the head as a
`List` and the cursor pointer as an `Option Nat` index into that list
(`none` models a NULL `next_aoa_event_node`).  Allocation (`kmalloc`)
is modelled on its success path; the failure path drops the record and
leaves the queue unchanged, which claims here do not exercise.

The transport collaborator (`usb_composite_probe`,
`usb_composite_unregister`, `gserial_cleanup`) is external: its calls
are recorded in an explicit trace list, and the probe return value is a
parameter of the embedded functions.
-/

namespace GadgetSerial

/-- enum aoa_string_type -/
inductive AoaStringType
  | manufacturer
  | model
  | strDescription
  | version
  | uri
  | serial
  deriving DecidableEq, Repr

/-- enum aoa_event_type -/
inductive AoaEventType
  | connectedAcm
  | disconnectedAcm
  | stringReceived
  | startRequested
  deriving DecidableEq, Repr

/-- struct aoa_event_list_node.  `str_type = none` models the field
being left uninitialized when the `str_type` pointer argument is NULL
(the code never reads it in that case, because then `str` is NULL too);
`str = none` models `str == NULL`.  A stored string is a byte list
that includes its NUL terminator. -/
structure AoaEventListNode where
  type : AoaEventType
  str_type : Option AoaStringType
  str : Option (List Nat)
  deriving DecidableEq, Repr

/-- The module-scope queue state: the nodes reachable from
`first_aoa_event_node` in list order (head at index 0, `last_aoa_event_node`
at the final index), and the index of `next_aoa_event_node` (`none` = NULL). -/
structure QueueState where
  log : List AoaEventListNode
  cursor : Option Nat
  deriving DecidableEq, Repr

/-- Initial state: all three node pointers NULL. -/
def QueueState.empty : QueueState := { log := [], cursor := none }

/-- Well-formedness: `next_aoa_event_node` is NULL or points to a node
reachable from the head. -/
def QueueState.wf (q : QueueState) : Prop :=
  ∀ i, q.cursor = some i → i < q.log.length

def AOA_MAX_STR_SIZE : Nat := 256

/-- aoa_event_node_add (allocation-success path).  If the list is
non-empty and the new record is `AOA_EVENT_CONNECTED_ACM`, every node of
the existing list is discarded first (`first_aoa_event_node` and
`next_aoa_event_node` are reset to NULL); then the new node is appended
at the tail, and if the cursor was NULL it is set to the new node. -/
def aoa_event_node_add (type : AoaEventType) (str_type : Option AoaStringType)
    (str : Option (List Nat)) (q : QueueState) : QueueState :=
  let newNode : AoaEventListNode := { type := type, str_type := str_type, str := str }
  let q1 : QueueState :=
    if q.log ≠ [] ∧ type = AoaEventType.connectedAcm then
      { log := [], cursor := none }
    else q
  { log := q1.log ++ [newNode],
    cursor :=
      if q1.log = [] then
        -- first == NULL branch: both head and cursor become the new node
        some 0
      else
        match q1.cursor with
        | none => some q1.log.length
        | some i => some i }

/-- aoa_event_add -/
def aoa_event_add (type : AoaEventType) (q : QueueState) : QueueState :=
  aoa_event_node_add type none none q

/-- aoa_str_received_event_add (success path of both allocations):
`str_mem_len = min(len + 1, AOA_MAX_STR_SIZE)`; `str_mem_len - 1`
payload bytes are copied from the input and a NUL terminator is placed
at the end, then the string is attached to an
`AOA_EVENT_STRING_RECEIVED` node. -/
def aoa_str_received_event_add (type : AoaStringType) (strbuf : List Nat)
    (q : QueueState) : QueueState :=
  let len := strbuf.length
  let str_mem_len := min (len + 1) AOA_MAX_STR_SIZE
  let str := strbuf.take (str_mem_len - 1) ++ [0]
  aoa_event_node_add AoaEventType.stringReceived (some type) (some str) q

/-- sizeof an enum in this C dialect (a plain int). -/
def sizeof_enum : Nat := 4

/-- sizeof (struct aoa_string) = sizeof (enum aoa_string_type) + AOA_MAX_STR_SIZE. -/
def sizeof_aoa_string : Nat := sizeof_enum + AOA_MAX_STR_SIZE

/-- sizeof (struct aoa_event) = sizeof (enum aoa_event_type) + sizeof (struct aoa_string):
the only read length aoa_read accepts. -/
def sizeof_aoa_event : Nat := sizeof_enum + sizeof_aoa_string

/-- C strlen over a byte list: number of bytes before the first NUL. -/
def strlen : List Nat → Nat
  | [] => 0
  | b :: rest => if b = 0 then 0 else strlen rest + 1

/-- Outcome of aoa_read.  `einval` is -EINVAL (bad buffer / length);
`blocked` stands for the interruptible wait taken when
`next_aoa_event_node == NULL` — in the sequential embedding it ends only
by a concurrent push or by a signal (then the call returns -EINTR), and
either way the queue is unchanged at that point; `ok ev bytes` is a
successful read returning `bytes` bytes of the record `ev`. -/
inductive ReadResult
  | einval
  | blocked
  | ok (ev : AoaEventListNode) (bytes : Nat)
  deriving DecidableEq, Repr

/-- aoa_read.  Checks `buf != NULL && len == sizeof(struct aoa_event)`,
waits for `next_aoa_event_node != NULL`, copies the record at the cursor
to the user (modelled as succeeding: a NULL buffer was already
rejected), and advances the cursor: to NULL if the cursor was at
`last_aoa_event_node`, else to the next node.  The byte count is
`sizeof(enum aoa_event_type)` for a string-less record, else that plus
`sizeof(enum aoa_string_type)` plus `strlen(str) + 1`.  Read nodes stay
in the list (only the cursor moves).  The `List.get?` mismatch branch is
unreachable for well-formed states: the cursor pointer always designates
a live node of the list. -/
def aoa_read (bufNull : Bool) (len : Nat) (q : QueueState) : ReadResult × QueueState :=
  if bufNull ∨ len ≠ sizeof_aoa_event then
    (ReadResult.einval, q)
  else
    match q.cursor with
    | none => (ReadResult.blocked, q)
    | some i =>
      match q.log.get? i with
      | none => (ReadResult.blocked, q)
      | some node =>
        let bytes :=
          match node.str with
          | none => sizeof_enum
          | some s => sizeof_enum + sizeof_enum + (strlen s + 1)
        let cursorAfter : Option Nat :=
          if i + 1 = q.log.length then none else some (i + 1)
        (ReadResult.ok node bytes, { q with cursor := cursorAfter })

/-- Repeatedly call aoa_read (valid buffer, exact record size),
collecting the returned records; stops early if a read does not
succeed. -/
def readN : Nat → QueueState → List AoaEventListNode × QueueState
  | 0, q => ([], q)
  | n + 1, q =>
    match aoa_read false sizeof_aoa_event q with
    | (ReadResult.ok node _, q1) =>
      let rest := readN n q1
      (node :: rest.1, rest.2)
    | (_, q1) => ([], q1)

/-- Run a sequence of aoa_event_node_add calls, each pushing the fields
of one node. -/
def pushAll (ps : List AoaEventListNode) (q : QueueState) : QueueState :=
  ps.foldl (fun acc n => aoa_event_node_add n.type n.str_type n.str acc) q

/-- enum gadget_mode -/
inductive GadgetMode
  | mode_none
  | mode_acm
  | mode_aoa
  deriving DecidableEq, Repr

/-- Calls into the external transport collaborator, recorded as a
trace.  `usb_composite_probe b` registers the composite driver with
bind callback `gs_bind_aoa` when `b = true`, `gs_bind_acm` when
`b = false`. -/
inductive TransportCall
  | usb_composite_unregister
  | gserial_cleanup
  | usb_composite_probe (in_aoa_mode : Bool)
  deriving DecidableEq, Repr

/-- switch_mode, under the mode_switch_mutex.  `probeRet b` is the
return value `usb_composite_probe` would give for bind callback
`gs_bind_aoa` (b = true) / `gs_bind_acm` (b = false).  Returns the C
return value, the value of `current_mode` after the call, and the trace
of transport calls made.  On probe failure control goes to `done`
without assigning `current_mode`, so the recorded mode keeps its prior
value. -/
def switch_mode (probeRet : Bool → Int) (current_mode : GadgetMode)
    (new_mode : GadgetMode) : Int × GadgetMode × List TransportCall :=
  if current_mode = new_mode then
    (0, current_mode, [])
  else
    let tearCalls : List TransportCall :=
      if current_mode ≠ GadgetMode.mode_none then
        [TransportCall.usb_composite_unregister, TransportCall.gserial_cleanup]
      else []
    match new_mode with
    | GadgetMode.mode_none => (0, GadgetMode.mode_none, tearCalls)
    | GadgetMode.mode_acm =>
      let ret := probeRet false
      let calls := tearCalls ++ [TransportCall.usb_composite_probe false]
      if ret ≠ 0 then (ret, current_mode, calls)
      else (0, GadgetMode.mode_acm, calls)
    | GadgetMode.mode_aoa =>
      let ret := probeRet true
      let calls := tearCalls ++ [TransportCall.usb_composite_probe true]
      if ret ≠ 0 then (ret, current_mode, calls)
      else (0, GadgetMode.mode_aoa, calls)

/-- reset_mode, under the mode_switch_mutex: success without transport
calls when `current_mode == MODE_NONE`; otherwise unregister, clean up,
and re-probe with the bind callback chosen by the recorded mode
(`gs_bind_acm` iff `current_mode == MODE_ACM`).  `current_mode` is
never assigned. -/
def reset_mode (probeRet : Bool → Int) (current_mode : GadgetMode) :
    Int × GadgetMode × List TransportCall :=
  if current_mode = GadgetMode.mode_none then
    (0, current_mode, [])
  else
    let in_aoa : Bool := if current_mode = GadgetMode.mode_acm then false else true
    (probeRet in_aoa, current_mode,
      [TransportCall.usb_composite_unregister, TransportCall.gserial_cleanup,
       TransportCall.usb_composite_probe in_aoa])

/-- Which bind callback switch_mode hands to `usb_composite_probe` for a
target mode: `gs_bind_aoa` (true) for MODE_AOA, `gs_bind_acm` (false)
for MODE_ACM. -/
def bind_in_aoa : GadgetMode → Bool
  | GadgetMode.mode_aoa => true
  | _ => false

def EBUSY : Int := 16

/-- The module-scope state the control-device surface touches: the
`aoa_ctrl_open` flag, `current_mode`, and the event queue. -/
structure DriverState where
  aoa_ctrl_open : Bool
  current_mode : GadgetMode
  queue : QueueState
  deriving DecidableEq, Repr

/-- aoa_open.  `atomic_xchg(&aoa_ctrl_open, true)`: if the flag was
already set, fail with -EBUSY (the flag stays set, nothing else runs).
Otherwise call `switch_mode(MODE_ACM)`; on success reset
`next_aoa_event_node` to `first_aoa_event_node` (cursor to head);
on failure clear the flag again.  Returns the C return value, the
resulting state, and the transport-call trace. -/
def aoa_open (probeRet : Bool → Int) (s : DriverState) :
    Int × DriverState × List TransportCall :=
  if s.aoa_ctrl_open then
    (-EBUSY, s, [])
  else
    let sw := switch_mode probeRet s.current_mode GadgetMode.mode_acm
    if sw.1 = 0 then
      (0, { aoa_ctrl_open := true, current_mode := sw.2.1,
            queue := { s.queue with
              cursor := if s.queue.log = [] then none else some 0 } }, sw.2.2)
    else
      (sw.1, { s with aoa_ctrl_open := false, current_mode := sw.2.1 }, sw.2.2)

/-- The connection-state tracker: `aoa_connected_acm` plus the queue it
pushes into. -/
structure ConnState where
  aoa_connected_acm : Bool
  queue : QueueState
  deriving DecidableEq, Repr

/-- aoa_set_connected_acm.  `atomic_xchg` stores the new flag value and
yields the old one; only on an actual change is one event pushed:
`AOA_EVENT_CONNECTED_ACM` when the new value is true,
`AOA_EVENT_DISCONNECTED_ACM` when it is false.  The second component is
the list of event types passed to aoa_event_add during the call. -/
def aoa_set_connected_acm (new_connected_acm : Bool) (s : ConnState) :
    ConnState × List AoaEventType :=
  if s.aoa_connected_acm ≠ new_connected_acm then
    let ev := if new_connected_acm then AoaEventType.connectedAcm
              else AoaEventType.disconnectedAcm
    ({ aoa_connected_acm := new_connected_acm, queue := aoa_event_add ev s.queue }, [ev])
  else
    ({ s with aoa_connected_acm := new_connected_acm }, [])

/-! Helper lemmas about the event queue. -/

/-- Appending a record that is not `AOA_EVENT_CONNECTED_ACM` performs no
compaction. -/
theorem aoa_event_node_add_not_connected (type : AoaEventType)
    (str_type : Option AoaStringType) (str : Option (List Nat)) (q : QueueState)
    (h : type ≠ AoaEventType.connectedAcm) :
    aoa_event_node_add type str_type str q =
      { log := q.log ++ [⟨type, str_type, str⟩],
        cursor :=
          if q.log = [] then some 0
          else
            match q.cursor with
            | none => some q.log.length
            | some i => some i } := by
  unfold aoa_event_node_add
  simp [h]

/-- Pushing Connected-free records onto a queue whose cursor sits at the
head of a non-empty log only appends them, leaving the cursor at the
head. -/
theorem pushAll_cursor_head (ps : List AoaEventListNode)
    (hnc : ∀ n ∈ ps, n.type ≠ AoaEventType.connectedAcm) :
    ∀ l : List AoaEventListNode, l ≠ [] →
      pushAll ps { log := l, cursor := some 0 } = { log := l ++ ps, cursor := some 0 } := by
  induction ps with
  | nil => intro l _; simp [pushAll]
  | cons n ps ih =>
    intro l hl
    have hn : n.type ≠ AoaEventType.connectedAcm := hnc n (by simp)
    have hstep : aoa_event_node_add n.type n.str_type n.str { log := l, cursor := some 0 } =
        { log := l ++ [n], cursor := some 0 } := by
      rw [aoa_event_node_add_not_connected _ _ _ _ hn]
      simp [hl]
    have htail := ih (fun m hm => hnc m (by simp [hm])) (l ++ [n]) (by simp)
    calc pushAll (n :: ps) { log := l, cursor := some 0 }
        = pushAll ps (aoa_event_node_add n.type n.str_type n.str
            { log := l, cursor := some 0 }) := by simp [pushAll]
      _ = pushAll ps { log := l ++ [n], cursor := some 0 } := by rw [hstep]
      _ = { log := (l ++ [n]) ++ ps, cursor := some 0 } := htail
      _ = { log := l ++ n :: ps, cursor := some 0 } := by simp

/-- Pushing Connected-free records into the empty queue yields exactly
those records, with the cursor at the head when there are any. -/
theorem pushAll_empty (ps : List AoaEventListNode)
    (hnc : ∀ n ∈ ps, n.type ≠ AoaEventType.connectedAcm) :
    pushAll ps QueueState.empty =
      { log := ps, cursor := if ps = [] then none else some 0 } := by
  cases ps with
  | nil => simp [pushAll, QueueState.empty]
  | cons n ps =>
    have hstep : aoa_event_node_add n.type n.str_type n.str QueueState.empty =
        { log := [n], cursor := some 0 } := by
      unfold aoa_event_node_add QueueState.empty
      simp
    have htail := pushAll_cursor_head ps (fun m hm => hnc m (by simp [hm])) [n] (by simp)
    calc pushAll (n :: ps) QueueState.empty
        = pushAll ps (aoa_event_node_add n.type n.str_type n.str QueueState.empty) := by
          simp [pushAll]
      _ = pushAll ps { log := [n], cursor := some 0 } := by rw [hstep]
      _ = { log := [n] ++ ps, cursor := some 0 } := htail
      _ = { log := n :: ps, cursor := if n :: ps = [] then none else some 0 } := by simp

/-- A successful aoa_read at cursor index `i` returns the node stored
there and advances the cursor. -/
theorem aoa_read_ok (q : QueueState) (i : Nat) (node : AoaEventListNode)
    (hc : q.cursor = some i) (hg : q.log.get? i = some node) :
    aoa_read false sizeof_aoa_event q =
      (ReadResult.ok node
        (match node.str with
         | none => sizeof_enum
         | some s => sizeof_enum + sizeof_enum + (strlen s + 1)),
       { q with cursor := if i + 1 = q.log.length then none else some (i + 1) }) := by
  unfold aoa_read
  rw [if_neg (by simp), hc]
  rw [List.get?_eq_getElem?] at hg
  simp [hg]

/-- Reading the remaining suffix of the log, starting with the cursor at
its first element, returns exactly that suffix. -/
theorem readN_suffix (l2 : List AoaEventListNode) :
    ∀ l1 : List AoaEventListNode,
      (readN l2.length { log := l1 ++ l2, cursor := some l1.length }).1 = l2 := by
  induction l2 with
  | nil => intro l1; simp [readN]
  | cons n l2 ih =>
    intro l1
    have hget : (l1 ++ n :: l2).get? l1.length = some n := by
      rw [List.get?_append_right (Nat.le_refl _)]
      simp
    have hb := aoa_read_ok { log := l1 ++ n :: l2, cursor := some l1.length }
      l1.length n rfl hget
    rw [List.length_cons, readN, hb]
    cases l2 with
    | nil => simp [readN]
    | cons m l2 =>
      have hne : l1.length + 1 ≠ (l1 ++ n :: m :: l2).length := by
        simp only [List.length_append, List.length_cons]
        omega
      have hcur : (if l1.length + 1 = (l1 ++ n :: m :: l2).length then (none : Option Nat)
          else some (l1.length + 1)) = some (l1.length + 1) := if_neg hne
      simp only [hcur]
      simpa using ih (l1 ++ [n])

/-- Reading the whole log with the cursor reset to the head returns the
log in order. -/
theorem readN_replay (l : List AoaEventListNode) :
    (readN l.length { log := l, cursor := if l = [] then none else some 0 }).1 = l := by
  cases l with
  | nil => simp [readN]
  | cons n l =>
    have := readN_suffix (n :: l) []
    simpa using this

/-! Theorems for the individual claims. -/

/-- Claim C1 (counterexample): a mode transition from MODE_ACM to
MODE_AOA whose `usb_composite_probe` call fails with -5 returns -5 but
leaves `current_mode` equal to MODE_ACM — the previously-active
personality — not MODE_NONE, refuting the claim that a failed
registration leaves the recorded mode at None. -/
theorem switch_fail_mode_counterexample :
    (switch_mode (fun _ => -5) GadgetMode.mode_acm GadgetMode.mode_aoa).1 = -5 ∧
    (switch_mode (fun _ => -5) GadgetMode.mode_acm GadgetMode.mode_aoa).2.1 =
      GadgetMode.mode_acm ∧
    GadgetMode.mode_acm ≠ GadgetMode.mode_none := by
  decide

/-- Claim C1 (amended): for every mode transition switch_mode(target)
with target different from the current mode in which the registration
call fails, the registration error is returned to the caller and the
recorded current mode afterwards equals the previously-recorded mode
(the prior personality, or None when it was None) — it is never reset
to None by the failure. -/
theorem switch_fail_keeps_prior_mode (probeRet : Bool → Int)
    (cur tgt : GadgetMode) (hne : cur ≠ tgt) (htgt : tgt ≠ GadgetMode.mode_none)
    (hfail : probeRet (bind_in_aoa tgt) ≠ 0) :
    (switch_mode probeRet cur tgt).1 = probeRet (bind_in_aoa tgt) ∧
    (switch_mode probeRet cur tgt).2.1 = cur := by
  cases tgt <;> cases cur <;> simp_all [switch_mode, bind_in_aoa]

theorem switch_fail_keeps_prior_mode_witness :
    (switch_mode (fun _ => -7) GadgetMode.mode_aoa GadgetMode.mode_acm).1 = -7 ∧
    (switch_mode (fun _ => -7) GadgetMode.mode_aoa GadgetMode.mode_acm).2.1 =
      GadgetMode.mode_aoa := by
  have h := switch_fail_keeps_prior_mode (fun _ => -7) GadgetMode.mode_aoa
    GadgetMode.mode_acm (by decide) (by decide) (by decide)
  simpa using h

/-- Claim C2: for every queue state with any number of buffered records
(read or unread), pushing a Connected event discards all previously
enqueued records and leaves exactly one record reachable from the head
and from the consumer cursor: the Connected event itself (the log is
exactly that one node and the cursor designates it). -/
theorem connected_push_leaves_single_record (str_type : Option AoaStringType)
    (str : Option (List Nat)) (q : QueueState) :
    aoa_event_node_add AoaEventType.connectedAcm str_type str q =
      { log := [⟨AoaEventType.connectedAcm, str_type, str⟩], cursor := some 0 } := by
  unfold aoa_event_node_add
  by_cases h : q.log = [] <;> simp [h]

/-- Claim C3: for every sequence of push operations that contains no
Connected event, repeated successful reads return the pushed records in
exactly insertion (FIFO) order. -/
theorem reads_fifo_without_connected (ps : List AoaEventListNode)
    (hnc : ∀ n ∈ ps, n.type ≠ AoaEventType.connectedAcm) :
    (readN ps.length (pushAll ps QueueState.empty)).1 = ps := by
  rw [pushAll_empty ps hnc]
  exact readN_replay ps

theorem reads_fifo_without_connected_witness :
    (readN 2 (pushAll
      [⟨AoaEventType.startRequested, none, none⟩,
       ⟨AoaEventType.disconnectedAcm, none, none⟩] QueueState.empty)).1 =
      [⟨AoaEventType.startRequested, none, none⟩,
       ⟨AoaEventType.disconnectedAcm, none, none⟩] := by
  simpa using reads_fifo_without_connected
    [⟨AoaEventType.startRequested, none, none⟩,
     ⟨AoaEventType.disconnectedAcm, none, none⟩] (by decide)

/-- Claim C4: switch_mode with the target equal to the current mode
returns success immediately, performs no unregister or register call on
the transport, and leaves the current mode unchanged. -/
theorem switch_mode_same_mode_noop (probeRet : Bool → Int) (m : GadgetMode) :
    switch_mode probeRet m m = (0, m, []) := by
  simp [switch_mode]

/-- Claim C5: while a control session is open, a second open fails with
-EBUSY, leaves the session-open flag set, does not alter the Mode
Controller state or the queue, and performs no transport call. -/
theorem second_open_busy (probeRet : Bool → Int) (s : DriverState)
    (h : s.aoa_ctrl_open = true) :
    aoa_open probeRet s = (-EBUSY, s, []) := by
  simp [aoa_open, h]

theorem second_open_busy_witness :
    aoa_open (fun _ => 0)
      { aoa_ctrl_open := true, current_mode := GadgetMode.mode_acm,
        queue := QueueState.empty } =
      (-EBUSY,
       { aoa_ctrl_open := true, current_mode := GadgetMode.mode_acm,
         queue := QueueState.empty }, []) :=
  second_open_busy (fun _ => 0) _ rfl

/-- Claim C6: a successful open resets the consumer cursor to the head
of the event log, so the newly opened session replays every surviving
record — including records pushed before the open and records already
read by a previous session — in insertion order. -/
theorem open_replays_history (probeRet : Bool → Int) (s : DriverState)
    (hopen : s.aoa_ctrl_open = false)
    (hsw : (switch_mode probeRet s.current_mode GadgetMode.mode_acm).1 = 0) :
    (aoa_open probeRet s).1 = 0 ∧
    (aoa_open probeRet s).2.1.queue.log = s.queue.log ∧
    (aoa_open probeRet s).2.1.queue.cursor =
      (if s.queue.log = [] then none else some 0) ∧
    (readN s.queue.log.length (aoa_open probeRet s).2.1.queue).1 = s.queue.log := by
  have hq : (aoa_open probeRet s).2.1.queue =
      { log := s.queue.log, cursor := if s.queue.log = [] then none else some 0 } := by
    simp [aoa_open, hopen, hsw]
  refine ⟨?_, ?_, ?_, ?_⟩
  · simp [aoa_open, hopen, hsw]
  · rw [hq]
  · rw [hq]
  · rw [hq]
    exact readN_replay s.queue.log

theorem open_replays_history_witness :
    (readN 2 ((aoa_open (fun _ => 0)
      { aoa_ctrl_open := false, current_mode := GadgetMode.mode_none,
        queue := { log := [⟨AoaEventType.connectedAcm, none, none⟩,
                           ⟨AoaEventType.startRequested, none, none⟩],
                   cursor := none } }).2.1.queue)).1 =
      [⟨AoaEventType.connectedAcm, none, none⟩,
       ⟨AoaEventType.startRequested, none, none⟩] := by
  have h := open_replays_history (fun _ => 0)
    { aoa_ctrl_open := false, current_mode := GadgetMode.mode_none,
      queue := { log := [⟨AoaEventType.connectedAcm, none, none⟩,
                         ⟨AoaEventType.startRequested, none, none⟩],
                 cursor := none } } rfl (by decide)
  simpa using h.2.2.2

/-- Claim C7: read invoked with a buffer length different from
sizeof(struct aoa_event) returns -EINVAL and leaves the queue — log and
consumer cursor — unchanged: no queued event is consumed. -/
theorem read_bad_length_einval (bufNull : Bool) (len : Nat) (q : QueueState)
    (h : len ≠ sizeof_aoa_event) :
    aoa_read bufNull len q = (ReadResult.einval, q) := by
  unfold aoa_read
  rw [if_pos (Or.inr h)]

theorem read_bad_length_einval_witness :
    aoa_read false 8 QueueState.empty = (ReadResult.einval, QueueState.empty) :=
  read_bad_length_einval false 8 QueueState.empty (by decide)

/-- Claim C8: a string payload pushed through the StringReceived
producer path is stored with at most AOA_MAX_STR_SIZE = 256 bytes
including its NUL terminator: input of length len stores
min(len+1, 256) - 1 payload bytes plus the terminator, so longer input
is truncated rather than rejected, and input within the bound is stored
in full. -/
theorem str_received_bounded_truncation (t : AoaStringType) (strbuf : List Nat)
    (q : QueueState) :
    ∃ stored : List Nat,
      (aoa_str_received_event_add t strbuf q).log =
        q.log ++ [⟨AoaEventType.stringReceived, some t, some stored⟩] ∧
      stored.length = min (strbuf.length + 1) AOA_MAX_STR_SIZE ∧
      stored.length ≤ AOA_MAX_STR_SIZE ∧
      stored = strbuf.take (min (strbuf.length + 1) AOA_MAX_STR_SIZE - 1) ++ [0] ∧
      (strbuf.length + 1 ≤ AOA_MAX_STR_SIZE → stored = strbuf ++ [0]) := by
  refine ⟨strbuf.take (min (strbuf.length + 1) AOA_MAX_STR_SIZE - 1) ++ [0],
    ?_, ?_, ?_, rfl, ?_⟩
  · simp only [aoa_str_received_event_add]
    rw [aoa_event_node_add_not_connected _ _ _ _ (by decide)]
  · simp only [List.length_append, List.length_take, List.length_cons,
      List.length_nil, AOA_MAX_STR_SIZE]
    omega
  · simp only [List.length_append, List.length_take, List.length_cons,
      List.length_nil, AOA_MAX_STR_SIZE]
    omega
  · intro h
    rw [Nat.min_eq_left h]
    simp

theorem str_received_bounded_truncation_witness :
    (aoa_str_received_event_add AoaStringType.model [80, 105] QueueState.empty).log =
      [⟨AoaEventType.stringReceived, some AoaStringType.model, some [80, 105, 0]⟩] := by
  obtain ⟨stored, hlog, -, -, -, hfull⟩ :=
    str_received_bounded_truncation AoaStringType.model [80, 105] QueueState.empty
  rw [hfull (by decide)] at hlog
  simpa [QueueState.empty] using hlog

/-- Claim C9: reset_mode never changes the recorded current mode: with
current MODE_NONE it returns success without touching the transport;
otherwise it unregisters and re-probes the personality recorded in
`current_mode`, which keeps the same value whether the re-registration
succeeds or fails, and the probe result is returned. -/
theorem reset_mode_keeps_mode (probeRet : Bool → Int) (m : GadgetMode) :
    (reset_mode probeRet m).2.1 = m ∧
    (m = GadgetMode.mode_none → reset_mode probeRet m = (0, m, [])) ∧
    (m ≠ GadgetMode.mode_none →
      (reset_mode probeRet m).2.2 =
        [TransportCall.usb_composite_unregister, TransportCall.gserial_cleanup,
         TransportCall.usb_composite_probe
           (if m = GadgetMode.mode_acm then false else true)] ∧
      (reset_mode probeRet m).1 =
        probeRet (if m = GadgetMode.mode_acm then false else true)) := by
  cases m <;> simp [reset_mode]

theorem reset_mode_keeps_mode_witness :
    (reset_mode (fun _ => -3) GadgetMode.mode_aoa).2.1 = GadgetMode.mode_aoa :=
  (reset_mode_keeps_mode (fun _ => -3) GadgetMode.mode_aoa).1

/-- Claim C10: the connection-state tracker is edge-triggered: setting
the connected flag to the value it already holds enqueues no event and
changes nothing, while an actual change enqueues exactly one event —
Connected when the new value is true, Disconnected when it is false —
and a second identical report immediately afterwards enqueues nothing. -/
theorem set_connected_edge_triggered (s : ConnState) (c : Bool) :
    (c = s.aoa_connected_acm → aoa_set_connected_acm c s = (s, [])) ∧
    (c ≠ s.aoa_connected_acm →
      (aoa_set_connected_acm c s).2 =
        [if c then AoaEventType.connectedAcm else AoaEventType.disconnectedAcm] ∧
      (aoa_set_connected_acm c s).1.queue =
        aoa_event_add
          (if c then AoaEventType.connectedAcm else AoaEventType.disconnectedAcm)
          s.queue ∧
      (aoa_set_connected_acm c s).1.aoa_connected_acm = c) ∧
    (aoa_set_connected_acm c (aoa_set_connected_acm c s).1).2 = [] := by
  refine ⟨?_, ?_, ?_⟩
  · intro h
    subst h
    simp [aoa_set_connected_acm]
  · intro h
    unfold aoa_set_connected_acm
    rw [if_pos (Ne.symm h)]
    exact ⟨rfl, rfl, rfl⟩
  · by_cases h : c = s.aoa_connected_acm
    · subst h
      simp [aoa_set_connected_acm]
    · simp [aoa_set_connected_acm, Ne.symm h]

theorem set_connected_edge_triggered_witness :
    aoa_set_connected_acm false
      { aoa_connected_acm := false, queue := QueueState.empty } =
      ({ aoa_connected_acm := false, queue := QueueState.empty }, []) :=
  (set_connected_edge_triggered
    { aoa_connected_acm := false, queue := QueueState.empty } false).1 rfl

end GadgetSerial
